import Mathlib

/-!
Shallow embedding of `src/main.py` (BlackRoad Startup Metrics).

SQLite `REAL` amounts are modelled as exact rationals `ℚ`; Python's
`round(x, d)` (round-half-to-even on the scaled value) is modelled by
`roundTo`.  Rows of the five tables are structures; the database is a
`Store` of row lists.  Write operations take the generated id and the
`utcnow` timestamp as explicit arguments, because the Python code draws
them from `uuid.uuid4()` and the wall clock.
-/

namespace StartupMetrics

/-- SQLite BINARY text comparison (memcmp), on the character lists of
the stored TEXT values: strict lexicographic order.  (On the ASCII
timestamps and period tags this program stores, byte order and
character order coincide.) -/
def charListLt : List Char → List Char → Bool
  | _, [] => false
  | [], _ :: _ => true
  | a :: as, b :: bs => decide (a < b) || (decide (a = b) && charListLt as bs)

/-- SQLite `<` on TEXT values. -/
def strLtb (s t : String) : Bool := charListLt s.data t.data

/-- Python's `round` ties-to-even on an exact value: nearest integer,
with exact halves going to the even neighbour. -/
def roundHalfEven (q : ℚ) : ℤ :=
  let f := ⌊q⌋
  let frac := q - f
  if frac < 1/2 then f
  else if 1/2 < frac then f + 1
  else if f % 2 = 0 then f else f + 1

/-- `round(q, d)` from Python, on exact rationals. -/
def roundTo (d : ℕ) (q : ℚ) : ℚ :=
  (roundHalfEven (q * 10 ^ d) : ℚ) / 10 ^ d

/-- Row of the `startups` table. -/
structure Startup where
  id : String
  name : String
  stage : String
  founded_date : Option String
  created_at : String
  updated_at : String
  deriving DecidableEq, Repr

/-- Row of the `metrics` table. -/
structure Metric where
  id : String
  startup_id : String
  metric_type : String
  value : ℚ
  period : String
  notes : String
  recorded_at : String
  deriving DecidableEq, Repr

/-- Row of the `customers` table.  `status` is the TEXT column holding
`"active"` (schema default) or `"churned"`; `churned_at` is a nullable
TEXT column. -/
structure Customer where
  id : String
  startup_id : String
  name : String
  plan : String
  mrr : ℚ
  status : String
  started_at : String
  churned_at : Option String
  notes : String
  deriving DecidableEq, Repr

/-- Row of the `employees` table. -/
structure Employee where
  id : String
  startup_id : String
  name : String
  role : String
  department : String
  salary : ℚ
  hired_at : String
  left_at : Option String
  deriving DecidableEq, Repr

/-- Row of the `funding_rounds` table.  `investors` is kept as the
decoded list rather than its JSON encoding. -/
structure FundingRound where
  id : String
  startup_id : String
  round_name : String
  amount : ℚ
  valuation : Option ℚ
  closed_at : String
  investors : List String
  notes : String
  deriving DecidableEq, Repr

/-- The SQLite database: the five tables, as insertion-ordered row lists. -/
structure Store where
  startups : List Startup
  customers : List Customer
  employees : List Employee
  funding_rounds : List FundingRound
  metrics : List Metric
  deriving DecidableEq, Repr

def emptyStore : Store := ⟨[], [], [], [], []⟩

/-- `SELECT SUM(mrr) FROM customers WHERE startup_id=? AND status='active'`,
`NULL` coalesced to `0.0`, then `round(_, 2)`. -/
def calculate_mrr (db : Store) (startup_id : String) : ℚ :=
  roundTo 2
    (((db.customers.filter
        (fun c => c.startup_id == startup_id && c.status == "active")).map
      Customer.mrr).sum)

/-- `round(self.calculate_mrr(startup_id) * 12, 2)`. -/
def calculate_arr (db : Store) (startup_id : String) : ℚ :=
  roundTo 2 (calculate_mrr db startup_id * 12)

/-- The dict returned by `calculate_churn_rate`. -/
structure ChurnResult where
  period : String
  customers_at_start : ℕ
  churned : ℕ
  churn_rate_pct : ℚ
  deriving DecidableEq, Repr

/-- `churned_at LIKE period+"%"`: a NULL column never matches; otherwise
prefix match (the pattern's only `%` is final, and period strings carry
no LIKE metacharacters or letters, so SQLite's case-folding is inert). -/
def likePeriod (period : String) : Option String → Bool
  | none => false
  | some t => period.data.isPrefixOf t.data

/-- `calculate_churn_rate`: the Python default `period=None` → current
month is resolved by the caller, so `period` is explicit here.
`started_at < period+"-01"` is SQLite BINARY text comparison, i.e.
lexicographic order on the strings. -/
def calculate_churn_rate (db : Store) (startup_id period : String) : ChurnResult :=
  let total_start :=
    (db.customers.filter
      (fun c => c.startup_id == startup_id &&
        strLtb c.started_at (period ++ "-01"))).length
  let churned :=
    (db.customers.filter
      (fun c => c.startup_id == startup_id && c.status == "churned" &&
        likePeriod period c.churned_at)).length
  let rate : ℚ := if total_start > 0 then (churned : ℚ) / total_start * 100 else 0
  { period := period
    customers_at_start := total_start
    churned := churned
    churn_rate_pct := roundTo 2 rate }

/-- `runway_months` in the Python result dict is either a rounded float
or the string literal `"∞"`. -/
inductive RunwayMonths where
  | num (months : ℚ)
  | inf
  deriving DecidableEq, Repr

/-- The dict returned by `calculate_runway`. -/
structure RunwayResult where
  total_raised : ℚ
  mrr : ℚ
  monthly_burn : ℚ
  net_burn : ℚ
  runway_months : RunwayMonths
  deriving DecidableEq, Repr

/-- `calculate_runway`: lifetime funding sum (NULL → 0.0), engine MRR,
`net_burn = max(0, monthly_burn - mrr)`, division on the *unrounded*
`net_burn`, `float("inf")` rendered as the `"∞"` sentinel. -/
def calculate_runway (db : Store) (startup_id : String) (monthly_burn : ℚ) :
    RunwayResult :=
  let total_raised :=
    ((db.funding_rounds.filter (fun f => f.startup_id == startup_id)).map
      FundingRound.amount).sum
  let mrr := calculate_mrr db startup_id
  let net_burn := max 0 (monthly_burn - mrr)
  { total_raised := roundTo 2 total_raised
    mrr := mrr
    monthly_burn := monthly_burn
    net_burn := roundTo 2 net_burn
    runway_months :=
      if net_burn > 0 then RunwayMonths.num (roundTo 1 (total_raised / net_burn))
      else RunwayMonths.inf }

/-- The dict returned by `headcount`; `by_department` is the GROUP BY
result as an association list department ↦ (count, rounded salary sum). -/
structure HeadcountResult where
  total_headcount : ℕ
  total_salary_cost : ℚ
  by_department : List (String × ℕ × ℚ)
  deriving DecidableEq, Repr

/-- `headcount`: rows with `left_at IS NULL`, counted and salary-summed,
grouped by department (departments listed once, in first-occurrence
order; absent departments are omitted). -/
def headcount (db : Store) (startup_id : String) : HeadcountResult :=
  let active := db.employees.filter
    (fun e => e.startup_id == startup_id && e.left_at.isNone)
  let depts := (active.map Employee.department).dedup
  { total_headcount := active.length
    total_salary_cost := roundTo 2 ((active.map Employee.salary).sum)
    by_department := depts.map (fun d =>
      let ds := active.filter (fun e => e.department == d)
      (d, ds.length, roundTo 2 ((ds.map Employee.salary).sum))) }

/-- The dict returned by `kpi_dashboard`.  The Python `runway` entry is
either the dict from `calculate_runway` or the empty dict `{}`; we model
the pair as `Option RunwayResult`, `none` standing for the empty dict. -/
structure Dashboard where
  startup : String
  mrr : ℚ
  arr : ℚ
  churn : ChurnResult
  runway : Option RunwayResult
  headcount : HeadcountResult
  as_of : String
  deriving DecidableEq, Repr

/-- `kpi_dashboard`: churn is taken for the current month (passed here
as `current_period`), runway only when `monthly_burn > 0`, and the
startup name falls back to `"Unknown"` when the id resolves to no row. -/
def kpi_dashboard (db : Store) (startup_id : String) (monthly_burn : ℚ)
    (current_period now : String) : Dashboard :=
  { startup :=
      match db.startups.find? (fun s => s.id == startup_id) with
      | some s => s.name
      | none => "Unknown"
    mrr := calculate_mrr db startup_id
    arr := calculate_arr db startup_id
    churn := calculate_churn_rate db startup_id current_period
    runway :=
      if monthly_burn > 0 then some (calculate_runway db startup_id monthly_burn)
      else none
    headcount := headcount db startup_id
    as_of := now }

/-- `metricLe a b` is SQLite `ORDER BY period` ascending: `a` may come
before `b` iff `a.period ≤ b.period` in BINARY text order. -/
def metricLe (a b : Metric) : Bool := !(strLtb b.period a.period)

/-- `SELECT * FROM metrics WHERE startup_id=? AND metric_type=?
ORDER BY period`: the matching rows, sorted by the period tag. -/
def metric_history (db : Store) (startup_id metric_type : String) : List Metric :=
  (db.metrics.filter
    (fun m => m.startup_id == startup_id && m.metric_type == metric_type)).mergeSort
    metricLe

/-- `create_startup`: the generated uuid and `utcnow()` are arguments. -/
def create_startup (db : Store) (name stage : String)
    (founded_date : Option String) (sid now : String) : Store × Startup :=
  let s : Startup :=
    { id := sid, name := name, stage := stage, founded_date := founded_date
      created_at := now, updated_at := now }
  ({ db with startups := db.startups ++ [s] }, s)

/-- `record_metric`: inserts unconditionally (the Python default
`period=None` → current month is resolved by the caller). -/
def record_metric (db : Store) (startup_id metric_type : String) (value : ℚ)
    (period notes mid now : String) : Store × Metric :=
  let m : Metric :=
    { id := mid, startup_id := startup_id, metric_type := metric_type
      value := value, period := period, notes := notes, recorded_at := now }
  ({ db with metrics := db.metrics ++ [m] }, m)

/-- `add_customer`: the INSERT names only (id, startup_id, name, plan,
mrr, started_at), so `status` takes the schema default `'active'`,
`churned_at` is NULL and `notes` the default `''`. -/
def add_customer (db : Store) (startup_id name : String) (mrr : ℚ)
    (plan cid now : String) : Store × Customer :=
  let c : Customer :=
    { id := cid, startup_id := startup_id, name := name, plan := plan
      mrr := mrr, status := "active", started_at := now
      churned_at := none, notes := "" }
  ({ db with customers := db.customers ++ [c] }, c)

/-- `UPDATE customers SET status='churned', churned_at=? WHERE id=?`. -/
def churn_customer (db : Store) (customer_id now : String) : Store :=
  { db with
    customers := db.customers.map (fun c =>
      if c.id == customer_id then
        { c with status := "churned", churned_at := some now }
      else c) }

/-- `add_employee`: `left_at` is NULL on insert. -/
def add_employee (db : Store) (startup_id name role department : String)
    (salary : ℚ) (eid now : String) : Store × Employee :=
  let e : Employee :=
    { id := eid, startup_id := startup_id, name := name, role := role
      department := department, salary := salary, hired_at := now
      left_at := none }
  ({ db with employees := db.employees ++ [e] }, e)

/-- `add_funding`: `investors or []`, notes default `''`. -/
def add_funding (db : Store) (startup_id round_name : String) (amount : ℚ)
    (valuation : Option ℚ) (investors : List String) (fid now : String) :
    Store × FundingRound :=
  let f : FundingRound :=
    { id := fid, startup_id := startup_id, round_name := round_name
      amount := amount, valuation := valuation, closed_at := now
      investors := investors, notes := "" }
  ({ db with funding_rounds := db.funding_rounds ++ [f] }, f)

/-- Every state-changing operation of `StartupMetricsService`, with the
generated ids and timestamps made explicit. -/
inductive Op where
  | create_startup (name stage : String) (founded_date : Option String)
      (sid now : String)
  | record_metric (startup_id metric_type : String) (value : ℚ)
      (period notes mid now : String)
  | add_customer (startup_id name : String) (mrr : ℚ) (plan cid now : String)
  | churn_customer (customer_id now : String)
  | add_employee (startup_id name role department : String) (salary : ℚ)
      (eid now : String)
  | add_funding (startup_id round_name : String) (amount : ℚ)
      (valuation : Option ℚ) (investors : List String) (fid now : String)
  deriving DecidableEq, Repr

/-- Effect of one operation on the store. -/
def applyOp (db : Store) : Op → Store
  | .create_startup name stage fd sid now =>
      (create_startup db name stage fd sid now).1
  | .record_metric sid mt v period notes mid now =>
      (record_metric db sid mt v period notes mid now).1
  | .add_customer sid name mrr plan cid now =>
      (add_customer db sid name mrr plan cid now).1
  | .churn_customer cid now => churn_customer db cid now
  | .add_employee sid name role dept salary eid now =>
      (add_employee db sid name role dept salary eid now).1
  | .add_funding sid rn amount val invs fid now =>
      (add_funding db sid rn amount val invs fid now).1

/-- The customer-table invariant claimed by the spec: `churned_at` is
set exactly when `status` is `"churned"`. -/
def CustomerOk (c : Customer) : Prop :=
  c.churned_at.isSome = true ↔ c.status = "churned"

/-- All customer rows of a store satisfy `CustomerOk`. -/
def CustomersOk (db : Store) : Prop := ∀ c ∈ db.customers, CustomerOk c

/-- Example rows used by the concrete counterexamples and witnesses. -/
def exStartup : Startup :=
  { id := "s1", name := "TestCorp", stage := "seed", founded_date := none
    created_at := "2024-01-01T00:00:00", updated_at := "2024-01-01T00:00:00" }

/-- A customer acquired before 2024-01 and still active. -/
def custA : Customer :=
  { id := "cA", startup_id := "s1", name := "Oldco", plan := "monthly"
    mrr := 500, status := "active", started_at := "2023-12-15T00:00:00"
    churned_at := none, notes := "" }

/-- A customer acquired and churned inside 2024-01. -/
def custB : Customer :=
  { id := "cB", startup_id := "s1", name := "Flash", plan := "monthly"
    mrr := 200, status := "churned", started_at := "2024-01-10T00:00:00"
    churned_at := some "2024-01-20T00:00:00", notes := "" }

/-- Store with the pre-period customer only. -/
def dbChurnA : Store := ⟨[exStartup], [custA], [], [], []⟩

/-- `dbChurnA` plus the same-period acquired-and-churned customer. -/
def dbChurnAB : Store := ⟨[exStartup], [custB, custA], [], [], []⟩

/-- A seed round of 500000 for startup `s1`. -/
def fundSeed : FundingRound :=
  { id := "f1", startup_id := "s1", round_name := "Seed", amount := 500000
    valuation := none, closed_at := "2024-01-02T00:00:00", investors := []
    notes := "" }

/-- Store with one 500000 round and no customers. -/
def dbRunway : Store := ⟨[exStartup], [], [], [fundSeed], []⟩

/-- Store obtained by `add_customer` with a negative `mrr`. -/
def dbNeg : Store :=
  (add_customer ⟨[exStartup], [], [], [], []⟩ "s1" "NegCust" (-500) "monthly"
    "c9" "2024-02-01T00:00:00").1

/-- `charListLt` decides the lexicographic strict order on `List Char`. -/
theorem charListLt_iff : ∀ a b : List Char, charListLt a b = true ↔ a < b
  | [], [] => by
    constructor
    · intro h; cases h
    · intro h; cases h
  | [], b :: bs => ⟨fun _ => List.Lex.nil, fun _ => rfl⟩
  | a :: as, [] => by
    constructor
    · intro h; cases h
    · intro h; cases h
  | a :: as, b :: bs => by
    simp only [charListLt, Bool.or_eq_true, Bool.and_eq_true, decide_eq_true_eq,
      charListLt_iff as bs]
    constructor
    · rintro (h | ⟨rfl, h⟩)
      · exact List.Lex.rel h
      · exact List.Lex.cons h
    · intro h
      cases h with
      | rel h => exact Or.inl h
      | cons h => exact Or.inr ⟨rfl, h⟩

theorem strLtb_iff (s t : String) : strLtb s t = true ↔ s < t := by
  rw [strLtb, charListLt_iff, String.lt_iff_toList_lt]
  exact Iff.rfl

theorem strLeb_iff (s t : String) : (!(strLtb t s)) = true ↔ s ≤ t := by
  simp only [Bool.not_eq_true', ← Bool.not_eq_true, strLtb_iff]
  exact not_lt

theorem roundHalfEven_intCast (k : ℤ) : roundHalfEven (k : ℚ) = k := by
  simp [roundHalfEven]

theorem roundTo_den (d : ℕ) (k : ℤ) :
    roundTo d ((k : ℚ) / 10 ^ d) = (k : ℚ) / 10 ^ d := by
  have h10 : ((10 : ℚ) ^ d) ≠ 0 := by positivity
  rw [roundTo, div_mul_cancel₀ _ h10, roundHalfEven_intCast]

theorem roundTo_intCast (d : ℕ) (k : ℤ) : roundTo d (k : ℚ) = k := by
  have h10 : ((10 : ℚ) ^ d) ≠ 0 := by positivity
  have h : ((k : ℚ)) = ((k * 10 ^ d : ℤ) : ℚ) / 10 ^ d := by push_cast; field_simp
  rw [h, roundTo_den]

theorem roundTo_natCast (d n : ℕ) : roundTo d (n : ℚ) = n := by
  exact_mod_cast roundTo_intCast d n

theorem roundTo_zero (d : ℕ) : roundTo d 0 = 0 := by
  exact_mod_cast roundTo_natCast d 0

/-- Every rounded value is an integer number of `10 ^ d`-ths. -/
theorem roundTo_exists_den (d : ℕ) (q : ℚ) :
    ∃ k : ℤ, roundTo d q = (k : ℚ) / 10 ^ d :=
  ⟨roundHalfEven (q * 10 ^ d), rfl⟩

theorem metricLe_iff (a b : Metric) : metricLe a b = true ↔ a.period ≤ b.period :=
  strLeb_iff a.period b.period

/-- Helper: the outer `round(_, 2)` in `calculate_arr` is the identity
because the MRR figure already has at most two decimal places. -/
theorem arr_eq_twelve_mul_mrr (db : Store) (startup_id : String) :
    calculate_arr db startup_id = calculate_mrr db startup_id * 12 := by
  obtain ⟨k, hk⟩ := roundTo_exists_den 2
    (((db.customers.filter
        (fun c => c.startup_id == startup_id && c.status == "active")).map
      Customer.mrr).sum)
  have hmrr : calculate_mrr db startup_id = (k : ℚ) / 10 ^ 2 := hk
  have h10 : ((10 : ℚ) ^ 2) ≠ 0 := by positivity
  have hmul : calculate_mrr db startup_id * 12 = ((12 * k : ℤ) : ℚ) / 10 ^ 2 := by
    rw [hmrr]; push_cast; ring
  rw [calculate_arr, hmul, roundTo_den]

/-- C5 (confirmed): on any one store state, `calculate_arr` returns
exactly 12 times the value `calculate_mrr` returns on that same state
(the embedding reads one immutable `Store`, which is the code's
"no intervening writes"); `calculate_arr` has no computation path
independent of `calculate_mrr`. -/
theorem calculate_arr_twelve_times_mrr (db : Store) (startup_id : String) :
    calculate_arr db startup_id = calculate_mrr db startup_id * 12 :=
  arr_eq_twelve_mul_mrr db startup_id

/-- C6 (confirmed): `calculate_mrr` is the 2-decimal rounding of the sum
of `mrr` over the startup's customers with status `"active"`; a churned
customer contributes nothing to it; and with no active customers both
MRR and ARR are 0. -/
theorem calculate_mrr_spec (db : Store) (startup_id : String) :
    calculate_mrr db startup_id =
      roundTo 2
        (((db.customers.filter
            (fun c => c.startup_id == startup_id && c.status == "active")).map
          Customer.mrr).sum) ∧
    (∀ c : Customer, c.status = "churned" →
      calculate_mrr
        { db with customers := c :: db.customers } startup_id =
      calculate_mrr db startup_id) ∧
    (db.customers.filter
        (fun c => c.startup_id == startup_id && c.status == "active") = [] →
      calculate_mrr db startup_id = 0 ∧ calculate_arr db startup_id = 0) :=
  by
  refine ⟨rfl, ?_, ?_⟩
  · intro c hc
    have hb : (c.startup_id == startup_id && c.status == "active") = false := by
      rw [hc]
      simp
    simp only [calculate_mrr, List.filter_cons, hb]
    rfl
  · intro hnil
    have hm : calculate_mrr db startup_id = 0 := by
      simp only [calculate_mrr, hnil, List.map_nil, List.sum_nil, roundTo_zero]
    refine ⟨hm, ?_⟩
    rw [arr_eq_twelve_mul_mrr, hm, zero_mul]

/-- C6 witness: a store whose only customer of the startup is churned
has empty active set, MRR 0 and ARR 0. -/
theorem calculate_mrr_spec_witness :
    calculate_mrr
      { emptyStore with
        customers :=
          [{ id := "w1", startup_id := "s1", name := "Gone", plan := "monthly"
             mrr := 250, status := "churned", started_at := "2024-01-05"
             churned_at := some "2024-02-01", notes := "" }] } "s1" = 0 ∧
    calculate_arr
      { emptyStore with
        customers :=
          [{ id := "w1", startup_id := "s1", name := "Gone", plan := "monthly"
             mrr := 250, status := "churned", started_at := "2024-01-05"
             churned_at := some "2024-02-01", notes := "" }] } "s1" = 0 :=
  (calculate_mrr_spec
    { emptyStore with
      customers :=
        [{ id := "w1", startup_id := "s1", name := "Gone", plan := "monthly"
           mrr := 250, status := "churned", started_at := "2024-01-05"
           churned_at := some "2024-02-01", notes := "" }] } "s1").2.2 (by decide)

/-- C7 (confirmed): `calculate_churn_rate` never divides by zero: with a
positive pre-period cohort the reported percentage is
`churned / customers_at_start × 100` rounded to 2 decimals, and with an
empty cohort it is exactly 0 by policy. -/
theorem calculate_churn_rate_no_div_by_zero (db : Store) (startup_id period : String) :
    ((calculate_churn_rate db startup_id period).customers_at_start > 0 →
      (calculate_churn_rate db startup_id period).churn_rate_pct =
        roundTo 2
          (((calculate_churn_rate db startup_id period).churned : ℚ) /
            ((calculate_churn_rate db startup_id period).customers_at_start : ℚ) * 100)) ∧
    ((calculate_churn_rate db startup_id period).customers_at_start = 0 →
      (calculate_churn_rate db startup_id period).churn_rate_pct = 0) := by
  constructor
  · intro hpos
    simp only [calculate_churn_rate] at hpos ⊢
    rw [if_pos hpos]
  · intro hzero
    simp only [calculate_churn_rate] at hzero ⊢
    rw [hzero]
    simp [roundTo_zero]

/-- C7 witness: on the empty store the cohort is empty and the rate is
the policy value 0. -/
theorem calculate_churn_rate_no_div_by_zero_witness :
    (calculate_churn_rate emptyStore "s1" "2024-01").churn_rate_pct = 0 :=
  (calculate_churn_rate_no_div_by_zero emptyStore "s1" "2024-01").2 (by decide)

/-- C10 (confirmed): whatever the insertion order of the `metrics` rows,
`metric_history` returns exactly the observations of the given label for
the given startup, in non-decreasing lexicographic order of their period
strings. -/
theorem metric_history_sorted (db : Store) (startup_id metric_type : String) :
    (metric_history db startup_id metric_type).Pairwise
      (fun a b => a.period ≤ b.period) ∧
    (metric_history db startup_id metric_type).Perm
      (db.metrics.filter
        (fun m => m.startup_id == startup_id && m.metric_type == metric_type)) := by
  constructor
  · have htrans : ∀ (a b c : Metric),
        metricLe a b = true → metricLe b c = true → metricLe a c = true := by
      intro a b c hab hbc
      rw [metricLe_iff] at hab hbc ⊢
      exact le_trans hab hbc
    have htotal : ∀ (a b : Metric), (metricLe a b || metricLe b a) = true := by
      intro a b
      rw [Bool.or_eq_true, metricLe_iff, metricLe_iff]
      exact le_total a.period b.period
    have hs := List.sorted_mergeSort htrans htotal
      (db.metrics.filter
        (fun m => m.startup_id == startup_id && m.metric_type == metric_type))
    refine List.Pairwise.imp ?_ hs
    intro a b hab
    exact (metricLe_iff a b).mp hab
  · exact List.mergeSort_perm _ _

/-- C9 (confirmed): the dashboard carries the runway sub-result exactly
when `monthly_burn > 0` (the Python `{}` placeholder is the `none` case
of the model), while the mrr, arr, churn and headcount sub-results are
present unconditionally. -/
theorem kpi_dashboard_runway_policy (db : Store) (startup_id : String)
    (monthly_burn : ℚ) (current_period now : String) :
    ((kpi_dashboard db startup_id monthly_burn current_period now).runway.isSome
        = true ↔ 0 < monthly_burn) ∧
    (monthly_burn = 0 →
      (kpi_dashboard db startup_id monthly_burn current_period now).runway = none) ∧
    (0 < monthly_burn →
      (kpi_dashboard db startup_id monthly_burn current_period now).runway =
        some (calculate_runway db startup_id monthly_burn)) ∧
    (kpi_dashboard db startup_id monthly_burn current_period now).mrr =
      calculate_mrr db startup_id ∧
    (kpi_dashboard db startup_id monthly_burn current_period now).arr =
      calculate_arr db startup_id ∧
    (kpi_dashboard db startup_id monthly_burn current_period now).churn =
      calculate_churn_rate db startup_id current_period ∧
    (kpi_dashboard db startup_id monthly_burn current_period now).headcount =
      headcount db startup_id := by
  refine ⟨?_, ?_, ?_, rfl, rfl, rfl, rfl⟩
  · by_cases h : monthly_burn > 0
    · simp [kpi_dashboard, h]
    · simp [kpi_dashboard, h]
  · intro h0
    simp [kpi_dashboard, h0]
  · intro h
    simp [kpi_dashboard, h]

/-- C9 witness: with burn 5000 the runway entry is present, with burn 0
it is the empty placeholder. -/
theorem kpi_dashboard_runway_policy_witness :
    (kpi_dashboard emptyStore "s1" 5000 "2024-01" "t").runway.isSome = true ∧
    (kpi_dashboard emptyStore "s1" 0 "2024-01" "t").runway = none := by
  constructor
  · exact (kpi_dashboard_runway_policy emptyStore "s1" 5000 "2024-01" "t").1.mpr
      (by norm_num)
  · exact (kpi_dashboard_runway_policy emptyStore "s1" 0 "2024-01" "t").2.1 rfl

/-- C8 (confirmed): every operation preserves the invariant that
`churned_at` is set iff `status` is `"churned"`; `add_customer` creates
its row active with no churn timestamp, and `churn_customer` sets status
and timestamp together on the targeted row. -/
theorem churned_invariant (db : Store) (op : Op) (h : CustomersOk db) :
    CustomersOk (applyOp db op) ∧
    (∀ (sid name : String) (mrr : ℚ) (plan cid now : String),
      (add_customer db sid name mrr plan cid now).2.status = "active" ∧
      (add_customer db sid name mrr plan cid now).2.churned_at = none) ∧
    (∀ (cid now : String), ∀ c ∈ (churn_customer db cid now).customers,
      c.id = cid → c.status = "churned" ∧ c.churned_at = some now) := by
  refine ⟨?_, fun _ _ _ _ _ _ => ⟨rfl, rfl⟩, ?_⟩
  · cases op with
    | create_startup name stage fd sid now => exact h
    | record_metric sid mt v period notes mid now => exact h
    | add_employee sid name role dept salary eid now => exact h
    | add_funding sid rn amount val invs fid now => exact h
    | add_customer sid name mrr plan cid now =>
      intro c hc
      simp only [applyOp, add_customer, List.mem_append, List.mem_singleton] at hc
      rcases hc with hc | rfl
      · exact h c hc
      · constructor
        · intro hx
          simp at hx
        · intro hx
          simp at hx
    | churn_customer cid now =>
      intro c hc
      simp only [applyOp, churn_customer, List.mem_map] at hc
      obtain ⟨x, hx, rfl⟩ := hc
      by_cases hid : (x.id == cid) = true
      · rw [if_pos hid]
        constructor
        · intro _; rfl
        · intro _; rfl
      · rw [if_neg hid]
        exact h x hx
  · intro cid now c hc hcid
    simp only [churn_customer, List.mem_map] at hc
    obtain ⟨x, hx, rfl⟩ := hc
    by_cases hid : (x.id == cid) = true
    · rw [if_pos hid]
      exact ⟨rfl, rfl⟩
    · rw [if_neg hid] at hcid ⊢
      exact absurd (beq_iff_eq.mpr hcid) hid

/-- C8 witness: churning customer `cA` of the concrete store keeps the
invariant satisfied. -/
theorem churned_invariant_witness :
    CustomersOk (applyOp dbChurnA (Op.churn_customer "cA" "2024-02-01T00:00:00")) :=
  (churned_invariant dbChurnA (Op.churn_customer "cA" "2024-02-01T00:00:00")
    (by
      intro c hc
      simp only [dbChurnA, custA] at hc
      simp only [List.mem_singleton] at hc
      subst hc
      constructor
      · intro hx
        simp [custA] at hx
      · intro hx
        simp [custA] at hx)).1

/-- C4 (confirmed): `calculate_runway` reports `net_burn` as
`max(0, monthly_burn − mrr)` (at the 2-decimal currency precision of
the output dict) and `total_raised` as the unfiltered lifetime sum of
round amounts; the result is the infinite sentinel exactly when
`monthly_burn ≤ mrr`, and otherwise the number
`total_raised / net_burn` rounded to one decimal. -/
theorem calculate_runway_spec (db : Store) (startup_id : String) (monthly_burn : ℚ) :
    (calculate_runway db startup_id monthly_burn).total_raised =
      roundTo 2
        (((db.funding_rounds.filter (fun f => f.startup_id == startup_id)).map
          FundingRound.amount).sum) ∧
    (calculate_runway db startup_id monthly_burn).net_burn =
      roundTo 2 (max 0 (monthly_burn - calculate_mrr db startup_id)) ∧
    ((calculate_runway db startup_id monthly_burn).runway_months = RunwayMonths.inf ↔
      monthly_burn ≤ calculate_mrr db startup_id) ∧
    (calculate_mrr db startup_id < monthly_burn →
      (calculate_runway db startup_id monthly_burn).runway_months =
        RunwayMonths.num (roundTo 1
          (((db.funding_rounds.filter (fun f => f.startup_id == startup_id)).map
              FundingRound.amount).sum /
            (monthly_burn - calculate_mrr db startup_id)))) := by
  refine ⟨rfl, rfl, ?_, ?_⟩
  · simp only [calculate_runway]
    by_cases h : calculate_mrr db startup_id < monthly_burn
    · have hmax : max 0 (monthly_burn - calculate_mrr db startup_id) > 0 :=
        lt_of_lt_of_le (sub_pos.mpr h) (le_max_right 0 _)
      rw [if_pos hmax]
      apply iff_of_false
      · simp
      · exact not_le.mpr h
    · have hmax : ¬ max 0 (monthly_burn - calculate_mrr db startup_id) > 0 := by
        rw [not_lt]
        exact max_le (le_refl 0) (sub_nonpos.mpr (not_lt.mp h))
      rw [if_neg hmax]
      exact iff_of_true rfl (not_lt.mp h)
  · intro h
    have hpos : (0 : ℚ) < monthly_burn - calculate_mrr db startup_id :=
      sub_pos.mpr h
    have hmax : max 0 (monthly_burn - calculate_mrr db startup_id) =
        monthly_burn - calculate_mrr db startup_id := max_eq_right (le_of_lt hpos)
    simp only [calculate_runway, hmax]
    rw [if_pos hpos]

/-- C4 witness: the spec's own example — 500000 raised, burn 50000,
MRR 0 — yields ten months of runway. -/
theorem calculate_runway_spec_witness :
    calculate_mrr dbRunway "s1" < 50000 ∧
    (calculate_runway dbRunway "s1" 50000).runway_months = RunwayMonths.num 10 := by
  have hm : calculate_mrr dbRunway "s1" = 0 := by
    simp [calculate_mrr, dbRunway, roundTo_zero]
  have hsum : ((dbRunway.funding_rounds.filter
      (fun f => f.startup_id == "s1")).map FundingRound.amount).sum = 500000 := by
    simp [dbRunway, fundSeed]
  have hlt : calculate_mrr dbRunway "s1" < 50000 := by rw [hm]; norm_num
  refine ⟨hlt, ?_⟩
  have h := (calculate_runway_spec dbRunway "s1" 50000).2.2.2 hlt
  rw [h, hm, hsum]
  have h10 : roundTo 1 ((10 : ℕ) : ℚ) = ((10 : ℕ) : ℚ) := roundTo_natCast 1 10
  norm_num at h10
  norm_num [h10]

/-- C3 counterexample: customer `cB` both starts and churns inside
period 2024-01, yet its presence moves the reported churn rate of the
one-pre-period-customer store from 0 to 100 — the rates with and
without the customer are not equal, contradicting the claim. -/
theorem churn_same_period_counterexample :
    strLtb custB.started_at ("2024-01" ++ "-01") = false ∧
    custB.status = "churned" ∧
    likePeriod "2024-01" custB.churned_at = true ∧
    (calculate_churn_rate dbChurnAB "s1" "2024-01").customers_at_start = 1 ∧
    (calculate_churn_rate dbChurnA "s1" "2024-01").customers_at_start = 1 ∧
    (calculate_churn_rate dbChurnAB "s1" "2024-01").churn_rate_pct = 100 ∧
    (calculate_churn_rate dbChurnA "s1" "2024-01").churn_rate_pct = 0 := by
  refine ⟨by decide, by decide, by decide, by decide, by decide, ?_, ?_⟩
  · have h1 : (dbChurnAB.customers.filter
        (fun c => c.startup_id == "s1" &&
          strLtb c.started_at ("2024-01" ++ "-01"))).length = 1 := by decide
    have h2 : (dbChurnAB.customers.filter
        (fun c => c.startup_id == "s1" && c.status == "churned" &&
          likePeriod "2024-01" c.churned_at)).length = 1 := by decide
    simp only [calculate_churn_rate, h1, h2]
    norm_num
    have h100 : roundTo 2 ((100 : ℕ) : ℚ) = ((100 : ℕ) : ℚ) := roundTo_natCast 2 100
    norm_num at h100
    exact h100
  · have h1 : (dbChurnA.customers.filter
        (fun c => c.startup_id == "s1" &&
          strLtb c.started_at ("2024-01" ++ "-01"))).length = 1 := by decide
    have h2 : (dbChurnA.customers.filter
        (fun c => c.startup_id == "s1" && c.status == "churned" &&
          likePeriod "2024-01" c.churned_at)).length = 0 := by decide
    simp only [calculate_churn_rate, h1, h2]
    norm_num [roundTo_zero]

/-- C3 (corrected): a customer that both started and churned within the
query period is excluded from `customers_at_start` (the denominator
remains the pre-period cohort), but it **is** counted in `churned`, so
the reported rate can rise when such a customer is present (as the
counterexample shows); the rates with and without the customer are not
in general equal. -/
theorem churn_same_period_effect (db : Store) (startup_id period : String)
    (c : Customer) (hown : c.startup_id = startup_id)
    (hstart : strLtb c.started_at (period ++ "-01") = false)
    (hchurn : c.status = "churned")
    (hin : likePeriod period c.churned_at = true) :
    (calculate_churn_rate { db with customers := c :: db.customers }
        startup_id period).customers_at_start =
      (calculate_churn_rate db startup_id period).customers_at_start ∧
    (calculate_churn_rate { db with customers := c :: db.customers }
        startup_id period).churned =
      (calculate_churn_rate db startup_id period).churned + 1 := by
  have hb1 : (c.startup_id == startup_id &&
      strLtb c.started_at (period ++ "-01")) = false := by
    rw [hstart, Bool.and_false]
  have hb2 : (c.startup_id == startup_id && c.status == "churned" &&
      likePeriod period c.churned_at) = true := by
    rw [hown, hchurn, hin]
    simp
  constructor
  · simp [calculate_churn_rate, List.filter_cons, hb1]
  · simp [calculate_churn_rate, List.filter_cons, hb2]

/-- C3 witness: adding `cB` to `dbChurnA` leaves the denominator at its
pre-period value and increments the churned count. -/
theorem churn_same_period_effect_witness :
    (calculate_churn_rate { dbChurnA with customers := custB :: dbChurnA.customers }
        "s1" "2024-01").customers_at_start =
      (calculate_churn_rate dbChurnA "s1" "2024-01").customers_at_start ∧
    (calculate_churn_rate { dbChurnA with customers := custB :: dbChurnA.customers }
        "s1" "2024-01").churned =
      (calculate_churn_rate dbChurnA "s1" "2024-01").churned + 1 :=
  churn_same_period_effect dbChurnA "s1" "2024-01" custB (by decide) (by decide)
    (by decide) (by decide)

/-- C1 counterexample: the store holds no Startup at all, yet
`calculate_mrr` on the unknown identifier `"ghost"` silently returns the
zero value (Python: `round(None or 0.0, 2)`), and `add_customer`
inserts its row unconditionally — no operation fails. -/
theorem unknown_startup_counterexample :
    emptyStore.startups = [] ∧
    calculate_mrr emptyStore "ghost" = 0 ∧
    (add_customer emptyStore "ghost" "Acme" 100 "monthly" "c1"
        "2024-03-01T00:00:00").1.customers =
      [{ id := "c1", startup_id := "ghost", name := "Acme", plan := "monthly"
         mrr := 100, status := "active", started_at := "2024-03-01T00:00:00"
         churned_at := none, notes := "" }] := by
  refine ⟨rfl, ?_, rfl⟩
  simp [calculate_mrr, emptyStore, roundTo_zero]

/-- C1 (corrected): no operation checks that `startup_id` exists — there
is no `NotFoundError` anywhere in the code.  On an identifier no row
references, every read returns a zero-valued or empty result
(MRR/ARR 0, churn counts and rate 0, headcount 0 with empty breakdown,
total raised 0), and every write inserts its row unconditionally. -/
theorem unknown_startup_silent_success (db : Store) (startup_id : String)
    (hs : ∀ s ∈ db.startups, s.id ≠ startup_id)
    (hc : ∀ c ∈ db.customers, c.startup_id ≠ startup_id)
    (he : ∀ e ∈ db.employees, e.startup_id ≠ startup_id)
    (hf : ∀ f ∈ db.funding_rounds, f.startup_id ≠ startup_id)
    (period : String) (burn : ℚ) :
    calculate_mrr db startup_id = 0 ∧
    calculate_arr db startup_id = 0 ∧
    (calculate_churn_rate db startup_id period).customers_at_start = 0 ∧
    (calculate_churn_rate db startup_id period).churned = 0 ∧
    (calculate_churn_rate db startup_id period).churn_rate_pct = 0 ∧
    (headcount db startup_id).total_headcount = 0 ∧
    (headcount db startup_id).total_salary_cost = 0 ∧
    (headcount db startup_id).by_department = [] ∧
    (calculate_runway db startup_id burn).total_raised = 0 ∧
    (∀ mt v p notes mid now,
      (record_metric db startup_id mt v p notes mid now).1.metrics =
        db.metrics ++ [(record_metric db startup_id mt v p notes mid now).2]) ∧
    (∀ name mrr plan cid now,
      (add_customer db startup_id name mrr plan cid now).1.customers =
        db.customers ++ [(add_customer db startup_id name mrr plan cid now).2]) ∧
    (∀ name role dept salary eid now,
      (add_employee db startup_id name role dept salary eid now).1.employees =
        db.employees ++ [(add_employee db startup_id name role dept salary eid now).2]) ∧
    (∀ rn amount val invs fid now,
      (add_funding db startup_id rn amount val invs fid now).1.funding_rounds =
        db.funding_rounds ++
          [(add_funding db startup_id rn amount val invs fid now).2]) := by
  have hcf : db.customers.filter
      (fun c => c.startup_id == startup_id && c.status == "active") = [] := by
    rw [List.filter_eq_nil_iff]
    intro c hcm
    simp only [Bool.and_eq_true, beq_iff_eq, not_and]
    intro h1 _
    exact hc c hcm h1
  have hmrr : calculate_mrr db startup_id = 0 := by
    simp only [calculate_mrr, hcf, List.map_nil, List.sum_nil, roundTo_zero]
  have hstart : db.customers.filter
      (fun c => c.startup_id == startup_id &&
        strLtb c.started_at (period ++ "-01")) = [] := by
    rw [List.filter_eq_nil_iff]
    intro c hcm
    simp only [Bool.and_eq_true, beq_iff_eq, not_and]
    intro h1 _
    exact hc c hcm h1
  have hchd : db.customers.filter
      (fun c => c.startup_id == startup_id && c.status == "churned" &&
        likePeriod period c.churned_at) = [] := by
    rw [List.filter_eq_nil_iff]
    intro c hcm
    simp only [Bool.and_eq_true, beq_iff_eq, not_and]
    intro h1
    exact absurd h1.1 (hc c hcm)
  have hemp : db.employees.filter
      (fun e => e.startup_id == startup_id && e.left_at.isNone) = [] := by
    rw [List.filter_eq_nil_iff]
    intro e hem
    simp only [Bool.and_eq_true, beq_iff_eq, not_and]
    intro h1 _
    exact he e hem h1
  have hfund : db.funding_rounds.filter
      (fun f => f.startup_id == startup_id) = [] := by
    rw [List.filter_eq_nil_iff]
    intro f hfm
    simp only [beq_iff_eq]
    exact hf f hfm
  refine ⟨hmrr, ?_, ?_, ?_, ?_, ?_, ?_, ?_, ?_,
    fun _ _ _ _ _ _ => rfl, fun _ _ _ _ _ => rfl,
    fun _ _ _ _ _ _ => rfl, fun _ _ _ _ _ _ => rfl⟩
  · rw [calculate_arr, hmrr]
    norm_num [roundTo_zero]
  · simp [calculate_churn_rate, hstart]
  · simp [calculate_churn_rate, hchd]
  · simp [calculate_churn_rate, hstart, roundTo_zero]
  · simp [headcount, hemp]
  · simp [headcount, hemp, roundTo_zero]
  · simp [headcount, hemp]
  · simp [calculate_runway, hfund, roundTo_zero]

/-- C1 witness: the amended theorem applied to the empty store and the
identifier `"ghost"`. -/
theorem unknown_startup_silent_success_witness :
    calculate_mrr emptyStore "ghost" = 0 ∧
    (headcount emptyStore "ghost").total_headcount = 0 := by
  have h := unknown_startup_silent_success emptyStore "ghost"
    (by intro s hs; cases hs) (by intro c hc; cases hc)
    (by intro e he; cases he) (by intro f hf; cases hf) "2024-01" 1000
  exact ⟨h.1, h.2.2.2.2.2.1⟩

/-- C2 counterexample: `add_customer` with the negative `mrr = -500`
succeeds — the row is stored and the negative amount flows straight
into `calculate_mrr` — instead of failing with `InvalidArgumentError`
before any write. -/
theorem negative_input_counterexample :
    (-500 : ℚ) < 0 ∧
    dbNeg.customers =
      [{ id := "c9", startup_id := "s1", name := "NegCust", plan := "monthly"
         mrr := -500, status := "active", started_at := "2024-02-01T00:00:00"
         churned_at := none, notes := "" }] ∧
    calculate_mrr dbNeg "s1" = -500 := by
  refine ⟨by norm_num, rfl, ?_⟩
  have h := roundTo_intCast 2 (-500)
  norm_num at h
  simp [calculate_mrr, dbNeg, add_customer, h]

/-- C2 (corrected): numeric inputs are never validated — there is no
`InvalidArgumentError` in the code.  A negative `mrr`, `salary`,
`amount` or metric `value` is accepted and written to the store
verbatim, and `calculate_runway` processes a negative `monthly_burn`
without failing. -/
theorem negative_inputs_accepted (db : Store)
    (startup_id name plan cid now role dept eid rn fid p notes mid : String)
    (invs : List String) (val : Option ℚ)
    (mrr salary amount value burn : ℚ)
    (hmrr : mrr < 0) (hsal : salary < 0) (hamt : amount < 0)
    (hval : value < 0) (hburn : burn < 0) :
    (add_customer db startup_id name mrr plan cid now).1.customers =
      db.customers ++
        [{ id := cid, startup_id := startup_id, name := name, plan := plan
           mrr := mrr, status := "active", started_at := now
           churned_at := none, notes := "" }] ∧
    (add_employee db startup_id name role dept salary eid now).1.employees =
      db.employees ++
        [{ id := eid, startup_id := startup_id, name := name, role := role
           department := dept, salary := salary, hired_at := now
           left_at := none }] ∧
    (add_funding db startup_id rn amount val invs fid now).1.funding_rounds =
      db.funding_rounds ++
        [{ id := fid, startup_id := startup_id, round_name := rn
           amount := amount, valuation := val, closed_at := now
           investors := invs, notes := "" }] ∧
    (record_metric db startup_id rn value p notes mid now).1.metrics =
      db.metrics ++
        [{ id := mid, startup_id := startup_id, metric_type := rn
           value := value, period := p, notes := notes, recorded_at := now }] ∧
    (calculate_runway db startup_id burn).monthly_burn = burn :=
  ⟨rfl, rfl, rfl, rfl, rfl⟩

/-- C2 witness: the amended theorem at concrete negative inputs. -/
theorem negative_inputs_accepted_witness :
    (add_customer emptyStore "s1" "N" (-1) "monthly" "c1" "t").1.customers =
      [{ id := "c1", startup_id := "s1", name := "N", plan := "monthly"
         mrr := -1, status := "active", started_at := "t"
         churned_at := none, notes := "" }] ∧
    (calculate_runway emptyStore "s1" (-1)).monthly_burn = -1 := by
  have h := negative_inputs_accepted emptyStore "s1" "N" "monthly" "c1" "t"
    "r" "d" "e1" "Seed" "f1" "2024-01" "" "m1" [] none
    (-1) (-1) (-1) (-1) (-1)
    (by norm_num) (by norm_num) (by norm_num) (by norm_num) (by norm_num)
  exact ⟨h.1, h.2.2.2.2⟩

end StartupMetrics
